import Mathlib

/-!
Verification of the attendance / face-verification core of the
Employee_User repository (Django app).  The definitions below are a
shallow embedding of `src/core/face_api.py` and of the view
`employee_attendance_view` in `src/core/views.py`.  Timestamps are
modelled as integers, JSON payloads as an inductive `JValue`, and the
external pieces (the HTTP transport and the standard-library base64
decoder) as function parameters.
-/

namespace EmployeeUser

/-- Untyped JSON-ish values, the shape of the face API responses. -/
inductive JValue where
  | null : JValue
  | bool (b : Bool) : JValue
  | num (n : Int) : JValue
  | str (s : String) : JValue
  | arr (xs : List JValue) : JValue
  | obj (fields : List (String × JValue)) : JValue

/-- Python truthiness for `JValue` (`if value:`). -/
def JValue.truthy : JValue → Bool
  | .null => false
  | .bool b => b
  | .num n => n != 0
  | .str s => s != ""
  | .arr xs => !xs.isEmpty
  | .obj fs => !fs.isEmpty

/-- `dict.get(key)` on an association list: the value, or `None`. -/
def lookupJ (fields : List (String × JValue)) (k : String) : JValue :=
  match fields.lookup k with
  | some v => v
  | none => .null

/-- `payload.get(key)` where `payload` may not be a dict. -/
def jget (v : JValue) (k : String) : JValue :=
  match v with
  | .obj fs => lookupJ fs k
  | _ => .null

/-- Python `a or b`: the first operand when truthy, else the second. -/
def pyOr (a b : JValue) : JValue := if a.truthy then a else b

/-- A single-quote character, used by Python `repr` of strings. -/
def sq : String := String.singleton (Char.ofNat 39)

mutual

/-- Python `str(value)` on a `JValue`. -/
def pyStr : JValue → String
  | .null => "None"
  | .bool b => if b then "True" else "False"
  | .num n => toString n
  | .str s => s
  | .arr xs => "[" ++ pyList xs ++ "]"
  | .obj fs => "\x7b" ++ pyFields fs ++ "\x7d"

/-- Python `repr(value)` as used for elements of containers. -/
def pyRepr : JValue → String
  | .str s => sq ++ s ++ sq
  | .null => "None"
  | .bool b => if b then "True" else "False"
  | .num n => toString n
  | .arr xs => "[" ++ pyList xs ++ "]"
  | .obj fs => "\x7b" ++ pyFields fs ++ "\x7d"

/-- Comma-separated rendering of list elements. -/
def pyList : List JValue → String
  | [] => ""
  | [v] => pyRepr v
  | v :: vs => pyRepr v ++ ", " ++ pyList vs

/-- Comma-separated rendering of dict items. -/
def pyFields : List (String × JValue) → String
  | [] => ""
  | [(k, v)] => sq ++ k ++ sq ++ ": " ++ pyRepr v
  | (k, v) :: fs => sq ++ k ++ sq ++ ": " ++ pyRepr v ++ ", " ++ pyFields fs

end

/-- The fixed priority keys probed by `extract_match_name`. -/
def matchKeys : List String := ["person_name", "person", "name", "label"]

/-- `for key in (...): value = d.get(key); if value: return str-able value`. -/
def firstTruthyKey (fields : List (String × JValue)) (keys : List String) :
    Option JValue :=
  keys.findSome? (fun k =>
    let value := lookupJ fields k
    if value.truthy then some value else none)

/-- Embedding of `face_api.extract_match_name` (src/core/face_api.py:100-122). -/
def extract_match_name (payload : JValue) : Option String :=
  match payload with
  | .obj fields =>
    match firstTruthyKey fields matchKeys with
    | some value => some (pyStr value)
    | none =>
      let ms := pyOr (lookupJ fields "matches") (lookupJ fields "results")
      match ms with
      | .arr (first :: _) =>
        (match first with
         | .obj ffields =>
           (match firstTruthyKey ffields matchKeys with
            | some value => some (pyStr value)
            | none => none)
         | .str s => some s
         | _ => none)
      | _ => none
  | _ => none

/-- The extraction policy exactly as the claim words it: the list is taken
from the key `matches`, falling back to `results` only when the key
`matches` is absent. -/
def extract_match_name_claimed (payload : JValue) : Option String :=
  match payload with
  | .obj fields =>
    match firstTruthyKey fields matchKeys with
    | some value => some (pyStr value)
    | none =>
      let ms :=
        match fields.lookup "matches" with
        | some v => v
        | none => lookupJ fields "results"
      match ms with
      | .arr (first :: _) =>
        (match first with
         | .obj ffields =>
           (match firstTruthyKey ffields matchKeys with
            | some value => some (pyStr value)
            | none => none)
         | .str s => some s
         | _ => none)
      | _ => none
  | _ => none

/-- The amended policy: the list comes from `matches`, or, when that value
is absent or falsy (e.g. an empty list), from `results`. -/
def extract_match_name_amended (payload : JValue) : Option String :=
  match payload with
  | .obj fields =>
    match firstTruthyKey fields matchKeys with
    | some value => some (pyStr value)
    | none =>
      let mv := lookupJ fields "matches"
      let ms := if mv.truthy then mv else lookupJ fields "results"
      match ms with
      | .arr (first :: _) =>
        (match first with
         | .obj ffields =>
           (match firstTruthyKey ffields matchKeys with
            | some value => some (pyStr value)
            | none => none)
         | .str s => some s
         | _ => none)
      | _ => none
  | _ => none

/-! ## Face API client (`src/core/face_api.py`)

The HTTP transport (`requests.Session.post`, including its retry
policy) is external to the repository and is modelled as a parameter:
`Except String HttpResponse`, where `error exc` stands for a raised
`RequestException` and `ok r` for a received response. -/

/-- An HTTP response as `_post` observes it: status code, the parsed
JSON body when the body is valid JSON, and the raw body text. -/
structure HttpResponse where
  status : Nat
  json : Option JValue
  text : String

/-- Embedding of `face_api._post` (src/core/face_api.py:42-62). -/
def post (path : String) (enabled : Bool)
    (transport : Except String HttpResponse) : Except String JValue :=
  if !enabled then .error "Face API is disabled by settings"
  else
    match transport with
    | .error exc => .error ("Could not reach face API: " ++ exc)
    | .ok response =>
      if response.status ≥ 400 then
        let detail :=
          match response.json with
          | some j => pyStr j
          | none => response.text
        .error (path ++ " returned " ++ toString response.status ++ ": " ++ detail)
      else
        match response.json with
        | some j => .ok j
        | none => .ok (.obj [("raw", .str response.text)])

/-- Embedding of `face_api.add_person` (src/core/face_api.py:65-84); the
image files' contents travel inside the abstract transport, so only the
list of image names matters here. -/
def add_person (enabled : Bool) (person_name : String) (images : List String)
    (transport : Except String HttpResponse) : Except String JValue :=
  let files_payload := images
  if files_payload.isEmpty then .error "No face images provided for enrollment"
  else post "/add_person" enabled transport

/-- Embedding of `face_api.rebuild_db` (src/core/face_api.py:87-88). -/
def rebuild_db (enabled : Bool) (transport : Except String HttpResponse) :
    Except String JValue :=
  post "/rebuild_db" enabled transport

/-- Embedding of `face_api.migrate` (src/core/face_api.py:91-92). -/
def migrate (enabled : Bool) (transport : Except String HttpResponse) :
    Except String JValue :=
  post "/migrate" enabled transport

/-- Embedding of `face_api.identify` (src/core/face_api.py:95-97). -/
def identify (enabled : Bool) (image_bytes : List Nat)
    (transport : Except String HttpResponse) : Except String JValue :=
  post "/identify" enabled transport

/-! ## Attendance flow (`src/core/views.py:700-793`) -/

/-- The `EmployeeAttendance` row for one employee and one date:
optional check-in, optional check-out, optional total duration.
Timestamps are integers. -/
structure AttendanceRecord where
  check_in : Option Int
  check_out : Option Int
  total_duration : Option Int
deriving DecidableEq, Repr

/-- A freshly created attendance row: all fields unset. -/
def emptyRecord : AttendanceRecord := ⟨none, none, none⟩

/-- The user-visible outcome of one request to the attendance view
(which `messages` call fired, or a plain page render). -/
inductive Outcome where
  | pageView
  | invalidAction
  | missingImage
  | decodeError
  | verifyFailed (msg : String)
  | faceMismatch
  | checkInRecorded (label : String)
  | checkOutRecorded (label : String)
  | noChange
deriving DecidableEq, Repr

/-- Python `f"{n:.2f}"` for an integer value. -/
def fmt2 (n : Int) : String := toString n ++ ".00"

/-- The confidence decoration of the success message
(src/core/views.py:764-773): `confidence or score or similarity`,
formatted to two decimals when numeric (Python treats booleans as
numbers there), `str`-rendered when otherwise truthy, empty otherwise. -/
def confidenceLabel (identify_result : JValue) : String :=
  let confidence :=
    pyOr (jget identify_result "confidence")
      (pyOr (jget identify_result "score") (jget identify_result "similarity"))
  match confidence with
  | .num n => " (confidence: " ++ fmt2 n ++ ")"
  | .bool b => " (confidence: " ++ (if b then "1.00" else "0.00") ++ ")"
  | c => if c.truthy then " (confidence: " ++ pyStr c ++ ")" else ""

/-- Python `str.strip()` whitespace: space, tab, newline, carriage
return, vertical tab, form feed. -/
def isPySpace (c : Char) : Bool :=
  c = ' ' || c = '\t' || c = '\n' || c = '\r' || c = '\x0b' || c = '\x0c'

/-- Python `str.lower()` (character-wise, ASCII range). -/
def pyLower (s : String) : String := ⟨s.data.map Char.toLower⟩

/-- Python `str.strip()`: drop leading and trailing whitespace. -/
def pyStrip (s : String) : String :=
  ⟨((s.data.dropWhile isPySpace).reverse.dropWhile isPySpace).reverse⟩

/-- The data of the claimed employee that the view consults: the
canonical `employee_id`, the personal-info `full_name` (absent when the
personal record is missing), and the linked account's first and last
name (absent when no account is linked). -/
structure EmployeeInfo where
  employee_id : String
  full_name : Option String
  user : Option (String × String)

/-- The set of acceptable identity strings (src/core/views.py:749-755):
the lowercased employee id, plus the lowercased personal full name when
present and non-empty, plus the lowercased stripped combined
first+last account name when non-empty. -/
def expected_names (e : EmployeeInfo) : List String :=
  let base := [pyLower e.employee_id]
  let base :=
    match e.full_name with
    | some f => if f = "" then base else base ++ [pyLower f]
    | none => base
  match e.user with
  | some (first_name, last_name) =>
    let user_full_name := pyStrip (first_name ++ " " ++ last_name)
    if user_full_name = "" then base else base ++ [pyLower user_full_name]
  | none => base

/-- `str(matched_name).strip().lower() if matched_name else ""`
(src/core/views.py:757). -/
def matched_name_value (matched_name : Option String) : String :=
  match matched_name with
  | some s => if s = "" then "" else pyLower (pyStrip s)
  | none => ""

/-- The part of the data URI after the first comma
(`data_uri.split(",", 1)[1]`). -/
def after_first_comma (s : String) : String :=
  ⟨(s.data.dropWhile (fun c => c ≠ ',')).tail⟩

/-- Embedding of the nested `_decode_base64_image`
(src/core/views.py:717-722).  The standard-library base64 decoder is
external and passed in as `b64decode`; `none` stands for a raised
decoding error. -/
def decode_base64_image (b64decode : String → Option (List Nat))
    (data_uri : String) : Option (List Nat) :=
  if data_uri = "" then none
  else
    let payload := if data_uri.data.contains ',' then after_first_comma data_uri
      else data_uri
    b64decode payload

/-- The state mutation block of the view (src/core/views.py:776-790):
record a first check-in; record/overwrite a check-out (with recomputed
duration) when a check-in exists; otherwise report no change. -/
def apply_attendance_action (action : String) (now : Int)
    (attendance : AttendanceRecord) (confidence_label : String) :
    AttendanceRecord × Outcome :=
  match action, attendance.check_in with
  | "check_in", none =>
    ({ attendance with check_in := some now }, .checkInRecorded confidence_label)
  | "check_out", some check_in_time =>
    ({ attendance with
        check_out := some now,
        total_duration := some (now - check_in_time) },
      .checkOutRecorded confidence_label)
  | _, _ => (attendance, .noChange)

/-- Embedding of `employee_attendance_view` (src/core/views.py:700-793)
for a single employee and day.  `store` is the database row for
(employee, today), `none` when it does not exist yet; the view's
`get_or_create` materialises it.  `identify_api` is the face
verification call, returning `error` for a raised `FaceAPIError`.
The result is the stored row after the request plus the outcome. -/
def employee_attendance_view (emp : EmployeeInfo) (now : Int) (method : String)
    (action captured_image : Option String)
    (b64decode : String → Option (List Nat))
    (identify_api : List Nat → Except String JValue)
    (store : Option AttendanceRecord) : Option AttendanceRecord × Outcome :=
  let attendance := store.getD emptyRecord
  if method = "POST" then
    let act := action.getD ""
    if act ≠ "check_in" ∧ act ≠ "check_out" then (some attendance, .invalidAction)
    else
      let img := captured_image.getD ""
      if img = "" then (some attendance, .missingImage)
      else
        match decode_base64_image b64decode img with
        | none => (some attendance, .decodeError)
        | some image_bytes =>
          match identify_api image_bytes with
          | .error exc => (some attendance, .verifyFailed exc)
          | .ok identify_result =>
            let matched := matched_name_value (extract_match_name identify_result)
            if matched = "" ∨ (expected_names emp).contains matched = false then
              (some attendance, .faceMismatch)
            else
              let result :=
                apply_attendance_action act now attendance
                  (confidenceLabel identify_result)
              (some result.1, result.2)
  else (some attendance, .pageView)

/-- Whether an outcome is one of the two state-mutating successes. -/
def Outcome.isApply : Outcome → Bool
  | .checkInRecorded _ => true
  | .checkOutRecorded _ => true
  | _ => false

/-- Erase the cosmetic confidence decoration from an outcome. -/
def Outcome.stripLabel : Outcome → Outcome
  | .checkInRecorded _ => .checkInRecorded ""
  | .checkOutRecorded _ => .checkOutRecorded ""
  | o => o

/-! ## Repeated runs of the flow, for the reachability invariant -/

/-- One successfully verified attendance action with its timestamp. -/
inductive FlowAction where
  | checkIn (t : Int)
  | checkOut (t : Int)

/-- The timestamp of an action. -/
def FlowAction.time : FlowAction → Int
  | .checkIn t => t
  | .checkOut t => t

/-- Apply one verified action to the record (the mutation block of the
view, with the cosmetic label irrelevant). -/
def applyFlow (r : AttendanceRecord) (a : FlowAction) : AttendanceRecord :=
  match a with
  | .checkIn t => (apply_attendance_action "check_in" t r "").1
  | .checkOut t => (apply_attendance_action "check_out" t r "").1

/-- State of the record after a day's sequence of verified actions,
starting from the freshly created row. -/
def runFlow (acts : List FlowAction) : AttendanceRecord :=
  acts.foldl applyFlow emptyRecord

/-- The record invariant of the spec: a set check-out requires a
check-in that does not exceed it, and a stored duration requires both
timestamps and equals their difference. -/
def attendance_inv (r : AttendanceRecord) : Prop :=
  (∀ o, r.check_out = some o → ∃ i, r.check_in = some i ∧ i ≤ o) ∧
  (∀ d, r.total_duration = some d →
    ∃ i o, r.check_in = some i ∧ r.check_out = some o ∧ d = o - i)

/-! ## Claim C2: extract_match_name priority search -/

/-- C2 counterexample: the claim reads the fallback as "the list under
`matches` (or, if absent, `results`)".  On the payload
`{"matches": [], "results": ["X"]}` the key `matches` is present, its
list is empty, so the claimed policy yields no match — but the code's
`payload.get("matches") or payload.get("results")` skips the falsy
empty list and returns "X". -/
theorem c2_extract_counterexample :
    extract_match_name
        (.obj [("matches", .arr []), ("results", .arr [.str "X"])]) = some "X" ∧
    extract_match_name_claimed
        (.obj [("matches", .arr []), ("results", .arr [.str "X"])]) = none :=
  ⟨rfl, rfl⟩

/-- C2 amended: `extract_match_name` returns the first truthy value
among `person_name`, `person`, `name`, `label` on the top level;
failing that it probes the first element of the list under `matches`
or, when that value is absent or falsy (e.g. an empty list), under
`results`, returning a first element that is a plain string directly;
otherwise no match.  In particular the four shapes of the claim yield
`x` and an unrecognizable payload yields no match. -/
theorem c2_extract_amended (payload : JValue) (x : String) (hx : x ≠ "") :
    extract_match_name payload = extract_match_name_amended payload ∧
    extract_match_name (.obj [("person_name", .str x)]) = some x ∧
    extract_match_name (.obj [("name", .str x)]) = some x ∧
    extract_match_name (.obj [("matches", .arr [.obj [("label", .str x)]])]) = some x ∧
    extract_match_name (.obj [("results", .arr [.str x])]) = some x ∧
    extract_match_name (.obj [("unrecognized", .str x)]) = none := by
  refine ⟨rfl, ?_, ?_, ?_, ?_, ?_⟩ <;>
    simp [extract_match_name, firstTruthyKey, matchKeys, lookupJ,
      JValue.truthy, pyStr, pyOr, List.findSome?, List.lookup, bne_iff_ne, hx]

/-- C2 amended witness at `x = "Jane"`. -/
theorem c2_extract_amended_witness :
    ("Jane" : String) ≠ "" ∧
      extract_match_name (.obj [("results", .arr [.str "Jane"])]) = some "Jane" :=
  ⟨by decide, (c2_extract_amended .null "Jane" (by decide)).2.2.2.2.1⟩

/-! ## Claim C7: disabled flag short-circuits every operation -/

/-- C7: with the enabled flag off, each of the four client operations
returns a `FaceAPIError` and its result does not depend on the
transport — no network attempt is consulted. -/
theorem c7_disabled_no_network (person_name : String) (images : List String)
    (image_bytes : List Nat) (t1 t2 : Except String HttpResponse) :
    add_person false person_name images t1 = add_person false person_name images t2 ∧
    (∃ e, add_person false person_name images t1 = .error e) ∧
    identify false image_bytes t1 = identify false image_bytes t2 ∧
    (∃ e, identify false image_bytes t1 = .error e) ∧
    rebuild_db false t1 = rebuild_db false t2 ∧
    (∃ e, rebuild_db false t1 = .error e) ∧
    migrate false t1 = migrate false t2 ∧
    (∃ e, migrate false t1 = .error e) := by
  unfold add_person identify rebuild_db migrate post
  by_cases h : images.isEmpty <;> simp [h]

/-! ## Helpers for the view-level claims -/

/-- The acceptance criterion of the view (src/core/views.py:759):
the stripped, lowercased best-guess identity is non-empty and belongs
to the acceptable-identity set. -/
def verified (emp : EmployeeInfo) (res : JValue) : Prop :=
  matched_name_value (extract_match_name res) ≠ "" ∧
  (expected_names emp).contains (matched_name_value (extract_match_name res)) = true

instance (emp : EmployeeInfo) (res : JValue) : Decidable (verified emp res) :=
  inferInstanceAs (Decidable (_ ∧ _))

/-- A concrete stand-in base64 decoder, used to instantiate the
external-decoder parameter in concrete scenarios. -/
def b64stub : String → Option (List Nat) := fun _ => some [0]

/-- The employee of the spec's worked example: canonical id "EMP-007",
full name "Jane Doe", no linked account. -/
def janeDoe : EmployeeInfo := ⟨"EMP-007", some "Jane Doe", none⟩

/-- On a POST with a valid action, a non-empty image that decodes, and a
successful identify call, the view reduces to the mismatch test
followed by the mutation block. -/
theorem view_post_ok (emp : EmployeeInfo) (now : Int) (act s : String)
    (b64 : String → Option (List Nat)) (bs : List Nat) (res : JValue)
    (identify_api : List Nat → Except String JValue)
    (store : Option AttendanceRecord)
    (hact : act = "check_in" ∨ act = "check_out") (hs : s ≠ "")
    (hdec : decode_base64_image b64 s = some bs)
    (hid : identify_api bs = Except.ok res) :
    employee_attendance_view emp now "POST" (some act) (some s) b64 identify_api store =
      if matched_name_value (extract_match_name res) = "" ∨
          (expected_names emp).contains (matched_name_value (extract_match_name res)) = false then
        (some (store.getD emptyRecord), .faceMismatch)
      else
        (some (apply_attendance_action act now (store.getD emptyRecord)
            (confidenceLabel res)).1,
          (apply_attendance_action act now (store.getD emptyRecord)
            (confidenceLabel res)).2) := by
  rcases hact with h | h <;> subst h <;>
    simp [employee_attendance_view, hs, hdec, hid]

/-! ## Claim C1: identity matching policy -/

/-- C1 counterexample: the claim accepts exactly when the lowercased
best-guess identity is a member of the acceptable set.  For the result
" EMP-007" (leading space) the lowercased identity " emp-007" is NOT in
the set built for Jane Doe, yet the flow accepts and records the
check-in, because the code also strips whitespace before comparing. -/
theorem c1_matching_counterexample :
    extract_match_name (.obj [("person_name", .str " EMP-007")]) = some " EMP-007" ∧
    (expected_names janeDoe).contains (pyLower " EMP-007") = false ∧
    employee_attendance_view janeDoe 0 "POST" (some "check_in") (some "x,AAAA")
        b64stub (fun _ => .ok (.obj [("person_name", .str " EMP-007")])) none
      = (some ⟨some 0, none, none⟩, .checkInRecorded "") := by
  refine ⟨rfl, by decide, by decide⟩

/-- C1 amended: the action is accepted exactly when the best-guess
identity, whitespace-stripped and lowercased, is a non-empty member of
the acceptable-identity set (canonical id, recorded full name, combined
account first+last name, all lowercased); otherwise the outcome is the
face-mismatch rejection and the record is untouched.  In particular for
Jane Doe any result whose stripped lowercasing is "emp-007" is accepted
and "John Smith" is rejected. -/
theorem c1_matching_amended (emp : EmployeeInfo) (res : JValue) (now : Int)
    (act : String) (store : Option AttendanceRecord)
    (hact : act = "check_in" ∨ act = "check_out") :
    (¬ verified emp res →
      employee_attendance_view emp now "POST" (some act) (some "x,AAAA") b64stub
          (fun _ => .ok res) store = (some (store.getD emptyRecord), .faceMismatch)) ∧
    (verified emp res →
      employee_attendance_view emp now "POST" (some act) (some "x,AAAA") b64stub
          (fun _ => .ok res) store
        = (some (apply_attendance_action act now (store.getD emptyRecord)
              (confidenceLabel res)).1,
            (apply_attendance_action act now (store.getD emptyRecord)
              (confidenceLabel res)).2)) ∧
    (∀ s : String, pyLower (pyStrip s) = "emp-007" →
      verified janeDoe (.obj [("person_name", .str s)])) ∧
    ¬ verified janeDoe (.obj [("person_name", .str "John Smith")]) := by
  have hview := view_post_ok emp now act "x,AAAA" b64stub [0] res
    (fun _ => .ok res) store hact (by decide) (by decide) rfl
  refine ⟨?_, ?_, ?_, by decide⟩
  · intro hnver
    rw [hview, if_pos]
    rcases not_and_or.mp hnver with h | h
    · exact Or.inl (not_not.mp h)
    · exact Or.inr (Bool.not_eq_true _ ▸ h)
  · intro hver
    rw [hview, if_neg]
    rw [not_or]
    exact ⟨hver.1, fun h => absurd hver.2 (by rw [h]; decide)⟩
  · intro s htl
    have hs : s ≠ "" := by
      intro h
      subst h
      exact absurd htl (by decide)
    constructor
    · simp [matched_name_value, extract_match_name, firstTruthyKey, matchKeys,
        lookupJ, List.findSome?, List.lookup, JValue.truthy, pyStr,
        bne_iff_ne, hs, htl]
    · simp only [matched_name_value, extract_match_name, firstTruthyKey, matchKeys,
        lookupJ, List.findSome?, List.lookup, JValue.truthy, pyStr,
        bne_iff_ne, hs, htl, expected_names, janeDoe]
      simp [hs, htl]
      exact Or.inl (by decide)

/-- C1 amended witness: "John Smith" is rejected for Jane Doe. -/
theorem c1_matching_amended_witness :
    employee_attendance_view janeDoe 3 "POST" (some "check_in") (some "x,AAAA")
        b64stub (fun _ => .ok (.obj [("person_name", .str "John Smith")])) none
      = (some emptyRecord, .faceMismatch) :=
  (c1_matching_amended janeDoe (.obj [("person_name", .str "John Smith")]) 3
      "check_in" none (Or.inl rfl)).1 (by decide)

/-! ## Claims C3 and C4: check-in / check-out bookkeeping -/

/-- C3: a successfully verified check-in sets the check-in timestamp
only when none is recorded, leaving check-out (and duration) untouched;
any later verified check-in the same day changes nothing and reports
that no change was applied. -/
theorem c3_first_checkin_wins (emp : EmployeeInfo) (res : JValue) (now : Int)
    (store : Option AttendanceRecord) (hver : verified emp res) :
    ((store.getD emptyRecord).check_in = none →
      employee_attendance_view emp now "POST" (some "check_in") (some "x,AAAA")
          b64stub (fun _ => .ok res) store
        = (some { store.getD emptyRecord with check_in := some now },
            .checkInRecorded (confidenceLabel res))) ∧
    (∀ t, (store.getD emptyRecord).check_in = some t →
      employee_attendance_view emp now "POST" (some "check_in") (some "x,AAAA")
          b64stub (fun _ => .ok res) store
        = (some (store.getD emptyRecord), .noChange)) := by
  have hview := (c1_matching_amended emp res now "check_in" store (Or.inl rfl)).2.1 hver
  constructor
  · intro hci
    rw [hview]
    simp [apply_attendance_action, hci]
  · intro t hci
    rw [hview]
    simp [apply_attendance_action, hci]

/-- C3 witness: first check-in on the fresh record of Jane Doe's day. -/
theorem c3_first_checkin_wins_witness :
    verified janeDoe (.obj [("person_name", .str "emp-007")]) ∧
    employee_attendance_view janeDoe 5 "POST" (some "check_in") (some "x,AAAA")
        b64stub (fun _ => .ok (.obj [("person_name", .str "emp-007")])) none
      = (some { emptyRecord with check_in := some 5 }, .checkInRecorded "") :=
  ⟨by decide,
    (c3_first_checkin_wins janeDoe (.obj [("person_name", .str "emp-007")]) 5 none
        (by decide)).1 rfl⟩

/-- C4: a successfully verified check-out is a no-op when no check-in is
recorded; when a check-in exists it overwrites the check-out timestamp
and recomputes the duration as check-out minus check-in, every time —
so a second verified check-out the same day overwrites both fields
with its later timestamp. -/
theorem c4_checkout_overwrites (emp : EmployeeInfo) (res : JValue)
    (store : Option AttendanceRecord) (hver : verified emp res) :
    (∀ now : Int, (store.getD emptyRecord).check_in = none →
      employee_attendance_view emp now "POST" (some "check_out") (some "x,AAAA")
          b64stub (fun _ => .ok res) store
        = (some (store.getD emptyRecord), .noChange)) ∧
    (∀ (now t : Int), (store.getD emptyRecord).check_in = some t →
      employee_attendance_view emp now "POST" (some "check_out") (some "x,AAAA")
          b64stub (fun _ => .ok res) store
        = (some { store.getD emptyRecord with
              check_out := some now, total_duration := some (now - t) },
            .checkOutRecorded (confidenceLabel res))) ∧
    (∀ (n1 n2 t : Int), (store.getD emptyRecord).check_in = some t →
      employee_attendance_view emp n2 "POST" (some "check_out") (some "x,AAAA")
          b64stub (fun _ => .ok res)
          (employee_attendance_view emp n1 "POST" (some "check_out") (some "x,AAAA")
            b64stub (fun _ => .ok res) store).1
        = (some { store.getD emptyRecord with
              check_out := some n2, total_duration := some (n2 - t) },
            .checkOutRecorded (confidenceLabel res))) := by
  have hview : ∀ (n : Int) (st : Option AttendanceRecord),
      employee_attendance_view emp n "POST" (some "check_out") (some "x,AAAA")
          b64stub (fun _ => .ok res) st
        = (some (apply_attendance_action "check_out" n (st.getD emptyRecord)
              (confidenceLabel res)).1,
            (apply_attendance_action "check_out" n (st.getD emptyRecord)
              (confidenceLabel res)).2) :=
    fun n st => (c1_matching_amended emp res n "check_out" st (Or.inr rfl)).2.1 hver
  refine ⟨?_, ?_, ?_⟩
  · intro now hci
    rw [hview]
    simp [apply_attendance_action, hci]
  · intro now t hci
    rw [hview]
    simp [apply_attendance_action, hci]
  · intro n1 n2 t hci
    rw [hview, hview]
    simp [apply_attendance_action, hci]

/-- C4 witness: two successive verified check-outs after a check-in at
time 2, at times 5 and then 9; the later one wins both fields. -/
theorem c4_checkout_overwrites_witness :
    verified janeDoe (.obj [("person_name", .str "emp-007")]) ∧
    employee_attendance_view janeDoe 9 "POST" (some "check_out") (some "x,AAAA")
        b64stub (fun _ => .ok (.obj [("person_name", .str "emp-007")]))
        (employee_attendance_view janeDoe 5 "POST" (some "check_out") (some "x,AAAA")
          b64stub (fun _ => .ok (.obj [("person_name", .str "emp-007")]))
          (some ⟨some 2, none, none⟩)).1
      = (some ⟨some 2, some 9, some 7⟩, .checkOutRecorded "") :=
  ⟨by decide,
    (c4_checkout_overwrites janeDoe (.obj [("person_name", .str "emp-007")])
        (some ⟨some 2, none, none⟩) (by decide)).2.2 5 9 2 rfl⟩

/-! ## Claim C5: record invariant over all reachable states -/

/-- One verified action preserves the invariant and keeps every stored
timestamp bounded by the action's own timestamp, provided the stored
timestamps were bounded by some earlier instant `t`. -/
theorem applyFlow_step (r : AttendanceRecord) (a : FlowAction) (t : Int)
    (hinv : attendance_inv r)
    (hbi : ∀ i, r.check_in = some i → i ≤ t)
    (hbo : ∀ o, r.check_out = some o → o ≤ t)
    (ht : t ≤ a.time) :
    attendance_inv (applyFlow r a) ∧
    (∀ i, (applyFlow r a).check_in = some i → i ≤ a.time) ∧
    (∀ o, (applyFlow r a).check_out = some o → o ≤ a.time) := by
  obtain ⟨hout, hdur⟩ := hinv
  cases a with
  | checkIn t' =>
    have ht' : t ≤ t' := ht
    cases hci : r.check_in with
    | none =>
      have hco : r.check_out = none := by
        cases hco : r.check_out with
        | none => rfl
        | some o =>
          obtain ⟨i, hi, _⟩ := hout o hco
          rw [hci] at hi
          cases hi
      have hdu : r.total_duration = none := by
        cases hdu : r.total_duration with
        | none => rfl
        | some d =>
          obtain ⟨i, o, hi, _, _⟩ := hdur d hdu
          rw [hci] at hi
          cases hi
      have hr : applyFlow r (FlowAction.checkIn t')
          = { r with check_in := some t' } := by
        simp [applyFlow, apply_attendance_action, hci]
      rw [hr]
      refine ⟨⟨?_, ?_⟩, ?_, ?_⟩
      · intro o ho
        simp only at ho
        rw [hco] at ho
        cases ho
      · intro d hd
        simp only at hd
        rw [hdu] at hd
        cases hd
      · intro i hi
        simp only at hi
        cases hi
        exact le_rfl
      · intro o ho
        simp only at ho
        rw [hco] at ho
        cases ho
    | some i0 =>
      have hr : applyFlow r (FlowAction.checkIn t') = r := by
        simp [applyFlow, apply_attendance_action, hci]
      rw [hr]
      exact ⟨⟨hout, hdur⟩,
        fun i hi => le_trans (hbi i hi) ht',
        fun o ho => le_trans (hbo o ho) ht'⟩
  | checkOut t' =>
    have ht' : t ≤ t' := ht
    cases hci : r.check_in with
    | none =>
      have hr : applyFlow r (FlowAction.checkOut t') = r := by
        simp [applyFlow, apply_attendance_action, hci]
      rw [hr]
      exact ⟨⟨hout, hdur⟩,
        fun i hi => le_trans (hbi i hi) ht',
        fun o ho => le_trans (hbo o ho) ht'⟩
    | some i0 =>
      have hi0 : i0 ≤ t' := le_trans (hbi i0 hci) ht'
      have hr : applyFlow r (FlowAction.checkOut t')
          = { r with check_out := some t', total_duration := some (t' - i0) } := by
        simp [applyFlow, apply_attendance_action, hci]
      rw [hr]
      refine ⟨⟨?_, ?_⟩, ?_, ?_⟩
      · intro o ho
        simp only at ho
        cases ho
        exact ⟨i0, hci, hi0⟩
      · intro d hd
        simp only at hd
        cases hd
        exact ⟨i0, t', hci, rfl, rfl⟩
      · intro i hi
        simp only at hi
        exact le_trans (hbi i hi) ht'
      · intro o ho
        simp only at ho
        cases ho
        exact le_rfl

/-- The fold of a monotone action sequence preserves the invariant. -/
theorem flow_fold_inv (acts : List FlowAction) :
    ∀ (r : AttendanceRecord) (t : Int),
      attendance_inv r →
      (∀ i, r.check_in = some i → i ≤ t) →
      (∀ o, r.check_out = some o → o ≤ t) →
      List.Chain (fun a b => FlowAction.time a ≤ FlowAction.time b)
        (FlowAction.checkIn t) acts →
      attendance_inv (acts.foldl applyFlow r) := by
  induction acts with
  | nil => intro r t hinv _ _ _; exact hinv
  | cons a rest ih =>
    intro r t hinv hbi hbo hchain
    rcases hchain with _ | ⟨hta, hchain'⟩
    obtain ⟨hinv', hbi', hbo'⟩ := applyFlow_step r a t hinv hbi hbo hta
    refine ih (applyFlow r a) a.time hinv' hbi' hbo' ?_
    cases rest with
    | nil => exact List.Chain.nil
    | cons b l =>
      rcases hchain' with _ | ⟨hab, hl⟩
      exact List.Chain.cons hab hl

/-- C5: starting from the freshly created row, any sequence of verified
check-in/check-out actions of the flow with non-decreasing timestamps
leaves the record satisfying the invariant: a set check-out never
precedes the check-in (and needs one), and a stored duration equals
check-out minus check-in. -/
theorem c5_record_invariant (acts : List FlowAction)
    (hmono : List.Chain' (fun a b => FlowAction.time a ≤ FlowAction.time b) acts) :
    attendance_inv (runFlow acts) := by
  unfold runFlow
  cases acts with
  | nil =>
    exact ⟨fun o ho => (nomatch ho), fun d hd => (nomatch hd)⟩
  | cons a rest =>
    refine flow_fold_inv (a :: rest) emptyRecord a.time
      ⟨fun o ho => (nomatch ho), fun d hd => (nomatch hd)⟩
      (fun i hi => (nomatch hi)) (fun o ho => (nomatch ho)) ?_
    refine List.Chain.cons le_rfl ?_
    cases rest with
    | nil => exact List.Chain.nil
    | cons b l =>
      rcases hmono with _ | ⟨hab, hl⟩
      exact List.Chain.cons hab hl

/-- C5 witness: check-in at 1 then check-out at 3. -/
theorem c5_record_invariant_witness :
    List.Chain' (fun a b => FlowAction.time a ≤ FlowAction.time b)
      [FlowAction.checkIn 1, FlowAction.checkOut 3] ∧
    attendance_inv (runFlow [FlowAction.checkIn 1, FlowAction.checkOut 3]) := by
  have hchain : List.Chain' (fun a b => FlowAction.time a ≤ FlowAction.time b)
      [FlowAction.checkIn 1, FlowAction.checkOut 3] :=
    List.chain'_cons.mpr ⟨by decide, List.chain'_singleton _⟩
  exact ⟨hchain, c5_record_invariant _ hchain⟩

/-! ## Claim C6: rejection before any network call -/

/-- C6: on a POST whose action is not check-in/check-out, or whose
captured image is missing or fails base64 decoding, the result does not
depend on the identify service (no call is attempted), the stored
record keeps its prior field values, and the outcome is the matching
rejection. -/
theorem c6_reject_before_network (emp : EmployeeInfo) (now : Int)
    (action captured_image : Option String)
    (b64 : String → Option (List Nat))
    (i1 i2 : List Nat → Except String JValue)
    (store : Option AttendanceRecord)
    (h : (action.getD "" ≠ "check_in" ∧ action.getD "" ≠ "check_out") ∨
        captured_image.getD "" = "" ∨
        decode_base64_image b64 (captured_image.getD "") = none) :
    employee_attendance_view emp now "POST" action captured_image b64 i1 store =
      employee_attendance_view emp now "POST" action captured_image b64 i2 store ∧
    (employee_attendance_view emp now "POST" action captured_image b64 i1 store).1
      = some (store.getD emptyRecord) ∧
    ((employee_attendance_view emp now "POST" action captured_image b64 i1 store).2
        = .invalidAction ∨
      (employee_attendance_view emp now "POST" action captured_image b64 i1 store).2
        = .missingImage ∨
      (employee_attendance_view emp now "POST" action captured_image b64 i1 store).2
        = .decodeError) := by
  by_cases h1 : action.getD "" ≠ "check_in" ∧ action.getD "" ≠ "check_out"
  · simp [employee_attendance_view, h1]
  · have h' : captured_image.getD "" = "" ∨
        decode_base64_image b64 (captured_image.getD "") = none := by
      rcases h with h | h
      · exact absurd h h1
      · exact h
    by_cases h2 : captured_image.getD "" = ""
    · simp [employee_attendance_view, h1, h2]
    · have h3 : decode_base64_image b64 (captured_image.getD "") = none := by
        rcases h' with h' | h'
        · exact absurd h' h2
        · exact h'
      simp [employee_attendance_view, h1, h2, h3]

/-- C6 witness: an unknown action "lunch" is rejected without any
identify call and without touching the record. -/
theorem c6_reject_before_network_witness :
    ((some "lunch" : Option String).getD "" ≠ "check_in" ∧
        (some "lunch" : Option String).getD "" ≠ "check_out") ∧
    (employee_attendance_view janeDoe 0 "POST" (some "lunch") (some "x,AAAA")
        b64stub (fun _ => .error "net") none).1
      = some ((none : Option AttendanceRecord).getD emptyRecord) :=
  ⟨by decide,
    (c6_reject_before_network janeDoe 0 (some "lunch") (some "x,AAAA") b64stub
        (fun _ => .error "net") (fun _ => .error "other") none
        (Or.inl (by decide))).2.1⟩

/-! ## Claim C8: record creation, mutation, deletion -/

/-- C8 counterexample: the claim says the record is created only by the
first check-in/check-out action of the day and that no record is
created on a day without an attendance action.  But the view's
get-or-create runs before the method check: a plain GET page view on a
day with no record materialises the empty record. -/
theorem c8_creation_counterexample :
    employee_attendance_view janeDoe 0 "GET" none none b64stub
        (fun _ => .error "") none
      = (some emptyRecord, .pageView) := rfl

/-- Helper: when the mutation block reports anything other than a
recorded check-in/check-out, it returns the record unchanged. -/
theorem apply_noapply (a : String) (n : Int) (r : AttendanceRecord) (l : String)
    (h : (apply_attendance_action a n r l).2.isApply = false) :
    (apply_attendance_action a n r l).1 = r := by
  unfold apply_attendance_action at h ⊢
  split at h
  · simp [Outcome.isApply] at h
  · simp [Outcome.isApply] at h
  · rfl

/-- C8 amended: the record for the day is created on the first access of
any kind to the attendance view (page views and rejected actions
included, via get-or-create), it is never deleted by the flow, and its
field values change only when the outcome is a recorded
check-in/check-out. -/
theorem c8_creation_amended (emp : EmployeeInfo) (now : Int) (method : String)
    (action captured_image : Option String)
    (b64 : String → Option (List Nat))
    (identify_api : List Nat → Except String JValue)
    (store : Option AttendanceRecord) :
    (∃ r, (employee_attendance_view emp now method action captured_image b64
        identify_api store).1 = some r) ∧
    ((employee_attendance_view emp now method action captured_image b64
          identify_api store).2.isApply = false →
      (employee_attendance_view emp now method action captured_image b64
          identify_api store).1 = some (store.getD emptyRecord)) := by
  unfold employee_attendance_view
  by_cases hm : method = "POST"
  · simp only [hm, if_pos rfl]
    by_cases h1 : action.getD "" ≠ "check_in" ∧ action.getD "" ≠ "check_out"
    · simp [h1, Outcome.isApply]
    · by_cases h2 : captured_image.getD "" = ""
      · simp [h1, h2, Outcome.isApply]
      · simp only [h1, h2, if_neg, if_false]
        cases hdec : decode_base64_image b64 (captured_image.getD "") with
        | none => simp [h1, h2, hdec, Outcome.isApply]
        | some bs =>
          cases hid : identify_api bs with
          | error e => simp [h1, h2, hdec, hid, Outcome.isApply]
          | ok res =>
            simp only [h1, h2, hdec, hid, if_false]
            by_cases hmz : matched_name_value (extract_match_name res) = "" ∨
                (expected_names emp).contains
                  (matched_name_value (extract_match_name res)) = false
            · rw [if_pos hmz]
              exact ⟨⟨_, rfl⟩, fun _ => rfl⟩
            · rw [if_neg hmz]
              exact ⟨⟨_, rfl⟩,
                fun hna => congrArg some (apply_noapply _ _ _ _ hna)⟩
  · simp [hm, Outcome.isApply]

/-- C8 amended witness: a GET creates the row and changes no field. -/
theorem c8_creation_amended_witness :
    (employee_attendance_view janeDoe 0 "GET" none none b64stub
        (fun _ => .error "") (some ⟨some 1, none, none⟩)).2.isApply = false ∧
    (employee_attendance_view janeDoe 0 "GET" none none b64stub
        (fun _ => .error "") (some ⟨some 1, none, none⟩)).1
      = some ((some (⟨some 1, none, none⟩ : AttendanceRecord)).getD emptyRecord) :=
  ⟨by decide,
    (c8_creation_amended janeDoe 0 "GET" none none b64stub (fun _ => .error "")
        (some ⟨some 1, none, none⟩)).2 (by decide)⟩

/-! ## Claim C9: the identify payload is the post-comma base64 decode -/

/-- C9: for a captured image containing a comma, the decoded byte
payload equals the base64 decoding of the substring after the first
comma, and the view consults the identify service only at that value:
two services that agree on it give identical results. -/
theorem c9_payload_after_comma (b64 : String → Option (List Nat)) (s : String)
    (h : s.data.contains ',' = true) (emp : EmployeeInfo) (now : Int)
    (action : Option String) (i1 i2 : List Nat → Except String JValue)
    (store : Option AttendanceRecord)
    (hag : ∀ bs, b64 (after_first_comma s) = some bs → i1 bs = i2 bs) :
    decode_base64_image b64 s = b64 (after_first_comma s) ∧
    employee_attendance_view emp now "POST" action (some s) b64 i1 store =
      employee_attendance_view emp now "POST" action (some s) b64 i2 store := by
  have hs : s ≠ "" := by
    intro he
    subst he
    exact absurd h (by decide)
  have hmem : ',' ∈ s.data := by simpa using h
  have hdec : decode_base64_image b64 s = b64 (after_first_comma s) := by
    simp [decode_base64_image, hs, hmem]
  refine ⟨hdec, ?_⟩
  unfold employee_attendance_view
  by_cases h1 : action.getD "" ≠ "check_in" ∧ action.getD "" ≠ "check_out"
  · simp [h1]
  · simp only [h1, if_neg, if_false]
    have himg : (some s : Option String).getD "" = s := rfl
    rw [himg]
    rw [if_neg hs, if_neg hs]
    rw [hdec]
    cases hb : b64 (after_first_comma s) with
    | none => rfl
    | some bs => simp [hag bs hb]

/-- C9 witness: with the decoder that returns the payload's character
codes, the image "head,BODY" is decoded to the codes of "BODY". -/
theorem c9_payload_after_comma_witness :
    ("head,BODY" : String).data.contains ',' = true ∧
    decode_base64_image (fun p => some (p.data.map Char.toNat)) "head,BODY"
      = (fun p : String => some (p.data.map Char.toNat)) (after_first_comma "head,BODY") :=
  ⟨by decide,
    (c9_payload_after_comma (fun p => some (p.data.map Char.toNat)) "head,BODY"
        (by decide) janeDoe 0 (some "check_in")
        (fun _ => .error "") (fun _ => .error "") none
        (fun bs _ => rfl)).1⟩

/-! ## Claim C10: confidence fields never influence the decision -/

/-- Helper: the record produced by the mutation block does not depend on
the cosmetic confidence label. -/
theorem apply_label_fst (a : String) (n : Int) (r : AttendanceRecord)
    (l l' : String) :
    (apply_attendance_action a n r l).1 = (apply_attendance_action a n r l').1 := by
  unfold apply_attendance_action
  cases r.check_in <;> by_cases ha : a = "check_in" <;>
    by_cases hb : a = "check_out" <;> simp [ha, hb]

/-- Helper: up to the confidence label, the outcome of the mutation
block does not depend on the label either. -/
theorem apply_label_strip (a : String) (n : Int) (r : AttendanceRecord)
    (l l' : String) :
    (apply_attendance_action a n r l).2.stripLabel
      = (apply_attendance_action a n r l').2.stripLabel := by
  unfold apply_attendance_action
  cases r.check_in <;> by_cases ha : a = "check_in" <;>
    by_cases hb : a = "check_out" <;> simp [ha, hb, Outcome.stripLabel]

/-- C10: two identify results with the same extracted best-guess
identity lead to the same stored record and the same outcome up to the
cosmetic confidence decoration, whatever their confidence, score or
similarity fields hold — the confidence value is never thresholded or
compared in the accept/reject decision. -/
theorem c10_confidence_irrelevant (emp : EmployeeInfo) (now : Int)
    (action captured_image : Option String)
    (b64 : String → Option (List Nat)) (res1 res2 : JValue)
    (store : Option AttendanceRecord)
    (hext : extract_match_name res1 = extract_match_name res2) :
    (employee_attendance_view emp now "POST" action captured_image b64
        (fun _ => .ok res1) store).1
      = (employee_attendance_view emp now "POST" action captured_image b64
          (fun _ => .ok res2) store).1 ∧
    (employee_attendance_view emp now "POST" action captured_image b64
        (fun _ => .ok res1) store).2.stripLabel
      = (employee_attendance_view emp now "POST" action captured_image b64
          (fun _ => .ok res2) store).2.stripLabel := by
  unfold employee_attendance_view
  by_cases h1 : action.getD "" ≠ "check_in" ∧ action.getD "" ≠ "check_out"
  · simp [h1]
  · simp only [h1, if_neg, if_false]
    by_cases h2 : captured_image.getD "" = ""
    · simp [h2]
    · simp only [h2, if_neg, if_false]
      cases hdec : decode_base64_image b64 (captured_image.getD "") with
      | none => exact ⟨rfl, rfl⟩
      | some bs =>
        simp only
        rw [← hext]
        by_cases hmz : matched_name_value (extract_match_name res1) = "" ∨
            (expected_names emp).contains
              (matched_name_value (extract_match_name res1)) = false
        · rw [if_pos hmz, if_pos hmz]
          exact ⟨rfl, rfl⟩
        · rw [if_neg hmz, if_neg hmz]
          exact ⟨congrArg some (apply_label_fst _ _ _ _ _),
            apply_label_strip _ _ _ _ _⟩

/-- C10 witness: a result with confidence 9 and one with no confidence
field at all, both naming "emp-007", give the same record and the same
outcome up to the decoration. -/
theorem c10_confidence_irrelevant_witness :
    extract_match_name (.obj [("person_name", .str "emp-007"), ("confidence", .num 9)])
      = extract_match_name (.obj [("person_name", .str "emp-007")]) ∧
    (employee_attendance_view janeDoe 4 "POST" (some "check_in") (some "x,AAAA")
        b64stub
        (fun _ => .ok (.obj [("person_name", .str "emp-007"), ("confidence", .num 9)]))
        none).1
      = (employee_attendance_view janeDoe 4 "POST" (some "check_in") (some "x,AAAA")
          b64stub (fun _ => .ok (.obj [("person_name", .str "emp-007")])) none).1 :=
  ⟨rfl,
    (c10_confidence_irrelevant janeDoe 4 (some "check_in") (some "x,AAAA") b64stub
        (.obj [("person_name", .str "emp-007"), ("confidence", .num 9)])
        (.obj [("person_name", .str "emp-007")]) none rfl).1⟩

end EmployeeUser
